import Mathlib

/-!
Verification of the lagunacam capture-encode-upload pipeline
(`src/lagunacam/main.py`) against its natural-language specification.

The Python program is shallowly embedded: the filesystem is a list of
temporary-file paths plus a fresh-name counter (mirroring
`tempfile.NamedTemporaryFile(delete=False)`, which guarantees unique names);
external tools (`raspivid`, `ffmpeg`, `scp`) are modelled by the exit code and
captured stderr that `subprocess.run(..., check=True, capture_output=True)`
observes; `Path(p).unlink(missing_ok=True)` is modelled by `unlinkMissingOk`,
parameterised by an oracle saying which existing files the OS fails to delete
(raising `OSError`); Python exceptions become explicit `Except` results.
-/

namespace LagunaCam

/-- A temporary file path as allocated by `tempfile.NamedTemporaryFile`:
a unique id (the allocator guarantees distinct names) plus the suffix
requested by the caller (".h264" for capture, ".mp4" for transcode). -/
structure TempPath where
  id : Nat
  suffix : String
deriving DecidableEq, Repr

/-- The filesystem state visible to the program: which temporary files
currently exist, and the next fresh id the temp-file allocator will use. -/
structure FS where
  files : List TempPath
  counter : Nat
deriving DecidableEq, Repr

/-- `tempfile.NamedTemporaryFile(delete=False, suffix=...)`: allocates a fresh
uniquely-named file, which immediately exists on disk. -/
def FS.mkTemp (fs : FS) (suffix : String) : TempPath × FS :=
  (⟨fs.counter, suffix⟩, ⟨⟨fs.counter, suffix⟩ :: fs.files, fs.counter + 1⟩)

/-- Exceptions the embedded code can raise: the program's own domain error
`LagunaCamException` (carrying its message string), or an `OSError` escaping
from `Path(p).unlink(missing_ok=True)` when the file exists but the OS
refuses to delete it. -/
inductive PyErr where
  | lagunaCam (msg : String)
  | osUnlinkError (p : TempPath)
deriving DecidableEq, Repr

/-- `Path(p).unlink(missing_ok=True)`. A missing file is silently tolerated
(`missing_ok=True` swallows `FileNotFoundError`); for an existing file the
oracle decides whether the OS delete fails (any such `OSError` propagates,
the file remaining) or succeeds (the file is removed). -/
def unlinkMissingOk (oracle : TempPath → Bool) (p : TempPath) (fs : FS) :
    FS × Option PyErr :=
  if p ∈ fs.files then
    if oracle p then (fs, some (.osUnlinkError p))
    else (⟨fs.files.erase p, fs.counter⟩, none)
  else (fs, none)

/-- The oracle for a normally-behaving OS: no delete ever fails. -/
def noUnlinkFail : TempPath → Bool := fun _ => false

/-- Result of `subprocess.run(command, check=True, capture_output=True)`:
exit status of the external tool and its captured standard error.
`check=True` raises `CalledProcessError` exactly when the exit code is
non-zero. -/
structure ProcResult where
  exitCode : Int
  stderr : String
deriving DecidableEq, Repr

/-- One argument of an external command line, as built by the source:
a literal flag string, a formatted number (`f"{duration}"` etc.), a
temporary-file path, or another formatted string (the scp destination). -/
inductive CArg where
  | flag (s : String)
  | num (n : Int)
  | path (p : TempPath)
  | str (s : String)
deriving DecidableEq, Repr

/-- Rendering of one command argument for the exception message. -/
def argRepr : CArg → String
  | .flag s => s
  | .num n => toString n
  | .path p => "/tmp/tmp" ++ toString p.id ++ p.suffix
  | .str s => s

/-- Rendering of the command for the exception message. -/
def cmdRepr (cmd : List CArg) : String :=
  String.intercalate " " (cmd.map argRepr)

/-- The part of the `LagunaCamException` message before the exit code. -/
def stageErrMsgPre (verb : String) (cmd : List CArg) : String :=
  "Unable to " ++ verb ++ ". Command was: " ++ cmdRepr cmd ++ ". Exit code: "

/-- The part of the `LagunaCamException` message between the exit code and
the captured stderr. -/
def stageErrMsgMid : String := ".\nError output: "

/-- The `LagunaCamException` message format shared by all stages:
`f"Unable to {verb}. Command was: {cmd}. Exit code: {code}.\nError output: {stderr}"`. -/
def stageErrMsg (verb : String) (cmd : List CArg) (code : Int) (stderr : String) :
    String :=
  stageErrMsgPre verb cmd ++ toString code ++ stageErrMsgMid ++ stderr

/-- The `raspivid` command line built by `record` (fps and bitrate are the
hardcoded policy constants 25 and `int(15e6)`). -/
def recordCommand (width height duration : Int) (out : TempPath) : List CArg :=
  [.flag "/opt/vc/bin/raspivid", .flag "-t", .num duration, .flag "-w",
   .num width, .flag "-h", .num height, .flag "-fps", .num 25, .flag "-b",
   .num 15000000, .flag "-o", .path out]

/-- `record(width, height, duration)`: allocates a fresh ".h264" temp file,
runs `raspivid`; on a non-zero exit it unlinks the temp file and raises
`LagunaCamException`; on success it returns the populated artifact. -/
def record (res : ProcResult) (oracle : TempPath → Bool)
    (width height duration : Int) (fs : FS) : FS × Except PyErr TempPath :=
  let alloc := fs.mkTemp ".h264"
  let out := alloc.1
  let fs1 := alloc.2
  if res.exitCode = 0 then
    (fs1, .ok out)
  else
    let u := unlinkMissingOk oracle out fs1
    match u.2 with
    | some e => (u.1, .error e)
    | none =>
        (u.1, .error (.lagunaCam (stageErrMsg "record video"
          (recordCommand width height duration out) res.exitCode res.stderr)))

/-- The `ffmpeg` command line built by `encode`. -/
def encodeCommand (input output : TempPath) : List CArg :=
  [.flag "ffmpeg", .flag "-y", .flag "-i", .path input, .path output]

/-- `encode(input_path)`: allocates a fresh ".mp4" temp file, runs `ffmpeg`;
on a non-zero exit it unlinks the output temp file and raises
`LagunaCamException`; in all cases the `finally` block unlinks the input
artifact before the function returns or the exception propagates. An
`OSError` raised by an unlink in the `finally` block replaces any exception
already in flight (Python `finally` semantics). -/
def encode (res : ProcResult) (oracle : TempPath → Bool) (input : TempPath)
    (fs : FS) : FS × Except PyErr TempPath :=
  let alloc := fs.mkTemp ".mp4"
  let out := alloc.1
  let fs1 := alloc.2
  if res.exitCode = 0 then
    let u := unlinkMissingOk oracle input fs1
    match u.2 with
    | some e => (u.1, .error e)
    | none => (u.1, .ok out)
  else
    let u1 := unlinkMissingOk oracle out fs1
    let pending : PyErr :=
      match u1.2 with
      | some e => e
      | none => .lagunaCam (stageErrMsg "encode video"
          (encodeCommand input out) res.exitCode res.stderr)
    let u2 := unlinkMissingOk oracle input u1.1
    match u2.2 with
    | some e => (u2.1, .error e)
    | none => (u2.1, .error pending)

/-- The wall-clock time read by `datetime.datetime.now()`. -/
structure DateTime where
  year : Nat
  month : Nat
  day : Nat
  hour : Nat
  minute : Nat
  second : Nat
deriving DecidableEq, Repr

/-- Two-digit zero padding as produced by strftime fields %m %d %H %M %S. -/
def fmt2 (n : Nat) : String :=
  if n < 10 then "0" ++ toString n else toString n

/-- `now.strftime("%Y-%m-%d-%H_%M_%S")`. -/
def timestampOf (t : DateTime) : String :=
  toString t.year ++ "-" ++ fmt2 t.month ++ "-" ++ fmt2 t.day ++ "-"
    ++ fmt2 t.hour ++ "_" ++ fmt2 t.minute ++ "_" ++ fmt2 t.second

/-- `f"laboratorio_laguna_cam_{timestamp}.mp4"`. -/
def uploadFilename (t : DateTime) : String :=
  "laboratorio_laguna_cam_" ++ timestampOf t ++ ".mp4"

/-- `f"{user}@{server}:{upload_relative_path}"` with the configured
user "stahl", server "10.35.0.182", and relative path `temp/venedig/`. -/
def uploadDestination (t : DateTime) : String :=
  "stahl@10.35.0.182:" ++ "temp/venedig/" ++ uploadFilename t

/-- The `scp` command line built by `upload`. -/
def uploadCommand (input : TempPath) (t : DateTime) : List CArg :=
  [.flag "scp", .flag "-o", .flag "StrictHostKeyChecking=no", .flag "-o",
   .flag "UserKnownHostsFile=/dev/null", .path input,
   .str (uploadDestination t)]

/-- `upload(input_path)`: computes the timestamped remote filename, runs
`scp`; on a non-zero exit it raises `LagunaCamException`; in all cases the
`finally` block unlinks the local input artifact before the function returns
the filename or the exception propagates. An `OSError` raised by the unlink
in the `finally` block replaces any exception already in flight. -/
def upload (res : ProcResult) (oracle : TempPath → Bool) (t : DateTime)
    (input : TempPath) (fs : FS) : FS × Except PyErr String :=
  if res.exitCode = 0 then
    let u := unlinkMissingOk oracle input fs
    match u.2 with
    | some e => (u.1, .error e)
    | none => (u.1, .ok (uploadFilename t))
  else
    let pending : PyErr := .lagunaCam (stageErrMsg "upload video"
      (uploadCommand input t) res.exitCode res.stderr)
    let u := unlinkMissingOk oracle input fs
    match u.2 with
    | some e => (u.1, .error e)
    | none => (u.1, .error pending)

/-- The outcomes the external world supplies to one pipeline cycle: the
result of each tool invocation and the current wall-clock time. -/
structure CycleEnv where
  raspivid : ProcResult
  ffmpeg : ProcResult
  scp : ProcResult
  time : DateTime
deriving DecidableEq, Repr

/-- The three pipeline stages, for tracing which stages a cycle invoked. -/
inductive Stage where
  | capture
  | transcode
  | upload
deriving DecidableEq, Repr

/-- The body of the `try` block of `create_video_task`: record, then encode,
then upload, each stage short-circuiting on exception. Also returns the list
of stages actually invoked. -/
def runCycle (w h d : Int) (env : CycleEnv) (oracle : TempPath → Bool)
    (fs : FS) : FS × Except PyErr String × List Stage :=
  match record env.raspivid oracle w h d fs with
  | (fs1, .error e) => (fs1, .error e, [.capture])
  | (fs1, .ok a1) =>
    match encode env.ffmpeg oracle a1 fs1 with
    | (fs2, .error e) => (fs2, .error e, [.capture, .transcode])
    | (fs2, .ok a2) =>
      match upload env.scp oracle env.time a2 fs2 with
      | (fs3, .error e) => (fs3, .error e, [.capture, .transcode, .upload])
      | (fs3, .ok fn) => (fs3, .ok fn, [.capture, .transcode, .upload])

/-- How one invocation of the scheduled job function ends. -/
inductive TaskOutcome where
  | success (filename : String)
  | loggedError (msg : String)
  | escaped (e : PyErr)
deriving DecidableEq, Repr

/-- `create_video_task`: runs the pipeline; `except LagunaCamException as e:
log.error(e)` catches exactly the domain error and logs it, returning
normally; any other exception escapes the function to the scheduler
framework; on success the filename is logged. -/
def createVideoTask (w h d : Int) (env : CycleEnv) (oracle : TempPath → Bool)
    (fs : FS) : FS × TaskOutcome × List Stage :=
  match runCycle w h d env oracle fs with
  | (fs1, .ok fn, tr) => (fs1, .success fn, tr)
  | (fs1, .error (.lagunaCam m), tr) => (fs1, .loggedError m, tr)
  | (fs1, .error (.osUnlinkError p), tr) => (fs1, .escaped (.osUnlinkError p), tr)

/-- Modelled from the spec: the Rocketry scheduler loop (`app.run()`, an
external library not under src/) "sleep until next candidate trigger time,
check due predicate, dispatch, repeat indefinitely". Each due trigger
dispatches one invocation of the job function `create_video_task` (which is
embedded from the source above); the loop records the invocation's outcome
and continues with the next trigger regardless of that outcome. `k` is the
index of the next due trigger and `n` the number of due triggers still to
dispatch; `envs` supplies the external world seen by each invocation. -/
def schedFrom (w h d : Int) (envs : Nat → CycleEnv) (oracle : TempPath → Bool) :
    Nat → Nat → FS → FS × List TaskOutcome
  | _, 0, fs => (fs, [])
  | k, n + 1, fs =>
    let r := createVideoTask w h d (envs k) oracle fs
    let rest := schedFrom w h d envs oracle (k + 1) n r.1
    (rest.1, r.2.1 :: rest.2)

/-- The `raspivid` command line built by `startup`: same flags as `record`
(fps 25, bitrate `int(15e6)`), duration `setup_time * 1000`, and no `-o`
output argument. -/
def startupCommand (w h st : Int) : List CArg :=
  [.flag "/opt/vc/bin/raspivid", .flag "-t", .num (st * 1000), .flag "-w",
   .num w, .flag "-h", .num h, .flag "-fps", .num 25, .flag "-b",
   .num 15000000]

/-- `startup(width, height, setup_time)`: runs the capture tool once with no
output file; a non-zero exit raises `LagunaCamException`, which `__main__`
does not catch. -/
def startup (res : ProcResult) (w h st : Int) : Except PyErr Unit :=
  if res.exitCode = 0 then .ok ()
  else .error (.lagunaCam (stageErrMsg "complete setup phase"
    (startupCommand w h st) res.exitCode res.stderr))

/-- The mapping `levels` of `parse_args`, from lowercase level name to the
`logging` module's numeric level. -/
def logLevels : List (String × Nat) :=
  [("critical", 50), ("error", 40), ("warning", 30), ("info", 20),
   ("debug", 10)]

/-- `args.log.lower()`: lowercase every character of the flag value. -/
def pyLower (s : String) : String := ⟨s.data.map Char.toLower⟩

/-- `levels.get(args.log.lower())` in `parse_args`. -/
def checkLogLevel (s : String) : Option Nat :=
  List.lookup (pyLower s) logLevels

/-- Events observable during process startup (`__main__`). -/
inductive MainEvent where
  | setupRun (cmd : List CArg)
  | schedulerStarted
deriving DecidableEq, Repr

/-- How process startup ends: `fatalExit` is the non-zero process exit taken
when the log-level flag is invalid (the source line reads `sys.exit(...)`;
`sys` is never imported, so at runtime the line raises an uncaught
`NameError` — either way the process terminates with a non-zero status
before any setup or scheduling); `uncaught` is an exception escaping
`__main__` (also a non-zero exit); `schedulerRunning` means `app.run()` was
reached. -/
inductive MainOutcome where
  | fatalExit
  | uncaught (e : PyErr)
  | schedulerRunning
deriving DecidableEq, Repr

/-- `__main__`: validate the log level (inside `parse_args`); on an invalid
value the process exits before anything else runs. Otherwise run `startup`
exactly once; if it raises, the exception is uncaught and the scheduler
never starts; otherwise `app.run()` starts the recurring scheduler. -/
def mainProgram (logArg : String) (setupRes : ProcResult) (w h st : Int) :
    List MainEvent × MainOutcome :=
  match checkLogLevel logArg with
  | none => ([], .fatalExit)
  | some _ =>
    match startup setupRes w h st with
    | .error e => ([.setupRun (startupCommand w h st)], .uncaught e)
    | .ok _ =>
        ([.setupRun (startupCommand w h st), .schedulerStarted],
         .schedulerRunning)

/-- `size.split(",")` on a character list: Python `str.split` with a
one-character separator (splits at every separator occurrence; the empty
string yields one empty part). -/
def splitOnComma (l : List Char) : List (List Char) :=
  l.foldr
    (fun c acc =>
      match acc with
      | [] => [[]]
      | part :: parts =>
          if c = ',' then [] :: part :: parts else (c :: part) :: parts)
    [[]]

/-- Digits of a Python integer literal after the first: Python `int()`
accepts a single underscore between digits ("1_0") but rejects leading,
trailing, or doubled underscores. -/
def digitsCore (acc : Nat) : List Char → Option Nat
  | [] => some acc
  | '_' :: c :: rest =>
      if c.isDigit then digitsCore (acc * 10 + (c.toNat - 48)) rest else none
  | c :: rest =>
      if c.isDigit then digitsCore (acc * 10 + (c.toNat - 48)) rest else none

/-- A nonempty digit sequence (with Python's underscore rule) and its value. -/
def pyDigits : List Char → Option Nat
  | [] => none
  | c :: rest =>
      if c.isDigit then digitsCore (c.toNat - 48) rest else none

/-- Python `int()` strips surrounding whitespace before parsing. -/
def pyStripWs (l : List Char) : List Char :=
  ((l.dropWhile Char.isWhitespace).reverse.dropWhile Char.isWhitespace).reverse

/-- Python `int(s)`: optional surrounding whitespace, an optional single
`+` or `-` sign, then a nonempty digit sequence; anything else raises
`ValueError`. -/
def pyInt (l : List Char) : Option Int :=
  match pyStripWs l with
  | '+' :: rest => (pyDigits rest).map (fun n => (n : Int))
  | '-' :: rest => (pyDigits rest).map (fun n => -(n : Int))
  | rest => (pyDigits rest).map (fun n => (n : Int))

/-- The `size` converter of `parse_args`:
`w, h = map(int, size.split(","))`, returning `(w, h)`; any exception — a
part that is not an integer literal, or a number of comma-separated parts
other than two (a failing tuple unpacking) — is turned into
`argparse.ArgumentTypeError("Size must be w,h")`. -/
def sizeArg (input : List Char) : Except String (Int × Int) :=
  match splitOnComma input with
  | [p1, p2] =>
    match pyInt p1, pyInt p2 with
    | some w, some h => .ok (w, h)
    | _, _ => .error "Size must be w,h"
  | _ => .error "Size must be w,h"

/-- An initially empty filesystem. -/
def fs0 : FS := ⟨[], 0⟩

/-- A sample wall-clock time. -/
def sampleTime : DateTime := ⟨2026, 10, 12, 9, 5, 3⟩

/-- A cycle in which the capture tool fails with exit code 1. -/
def envCapFail : CycleEnv := ⟨⟨1, "device busy"⟩, ⟨0, ""⟩, ⟨0, ""⟩, sampleTime⟩

/-- A cycle in which capture succeeds and the transcoder fails. -/
def envEncFail : CycleEnv := ⟨⟨0, ""⟩, ⟨1, "codec error"⟩, ⟨0, ""⟩, sampleTime⟩

/-- A cycle in which every external tool succeeds. -/
def envAllOk : CycleEnv := ⟨⟨0, ""⟩, ⟨0, ""⟩, ⟨0, ""⟩, sampleTime⟩

/-- An unlink oracle under which the OS fails to delete the file with id 0
(for example, a permission error on the capture artifact). -/
def failUnlink0 : TempPath → Bool := fun p => p.id == 0

theorem unlink_noFail (p : TempPath) (fs : FS) :
    unlinkMissingOk noUnlinkFail p fs = (⟨fs.files.erase p, fs.counter⟩, none) := by
  unfold unlinkMissingOk noUnlinkFail
  by_cases hmem : p ∈ fs.files
  · simp [hmem]
  · simp [hmem, List.erase_of_not_mem hmem]

theorem record_ok (res : ProcResult) (w h d : Int) (fs : FS)
    (hres : res.exitCode = 0) :
    record res noUnlinkFail w h d fs =
      (⟨⟨fs.counter, ".h264"⟩ :: fs.files, fs.counter + 1⟩,
       .ok ⟨fs.counter, ".h264"⟩) := by
  unfold record FS.mkTemp
  simp [hres]

theorem record_err (res : ProcResult) (w h d : Int) (fs : FS)
    (hres : ¬ res.exitCode = 0) :
    record res noUnlinkFail w h d fs =
      (⟨fs.files, fs.counter + 1⟩,
       .error (.lagunaCam (stageErrMsg "record video"
         (recordCommand w h d ⟨fs.counter, ".h264"⟩) res.exitCode res.stderr))) := by
  unfold record FS.mkTemp
  simp [hres, unlink_noFail]

theorem encode_ok (res : ProcResult) (input : TempPath) (fs : FS)
    (hres : res.exitCode = 0) :
    encode res noUnlinkFail input fs =
      (⟨((⟨fs.counter, ".mp4"⟩ : TempPath) :: fs.files).erase input,
        fs.counter + 1⟩,
       .ok ⟨fs.counter, ".mp4"⟩) := by
  unfold encode FS.mkTemp
  simp [hres, unlink_noFail]

theorem encode_err (res : ProcResult) (input : TempPath) (fs : FS)
    (hres : ¬ res.exitCode = 0) :
    encode res noUnlinkFail input fs =
      (⟨fs.files.erase input, fs.counter + 1⟩,
       .error (.lagunaCam (stageErrMsg "encode video"
         (encodeCommand input ⟨fs.counter, ".mp4"⟩) res.exitCode res.stderr))) := by
  unfold encode FS.mkTemp
  simp [hres, unlink_noFail]

theorem upload_ok (res : ProcResult) (t : DateTime) (input : TempPath) (fs : FS)
    (hres : res.exitCode = 0) :
    upload res noUnlinkFail t input fs =
      (⟨fs.files.erase input, fs.counter⟩, .ok (uploadFilename t)) := by
  unfold upload
  simp [hres, unlink_noFail]

theorem upload_err (res : ProcResult) (t : DateTime) (input : TempPath) (fs : FS)
    (hres : ¬ res.exitCode = 0) :
    upload res noUnlinkFail t input fs =
      (⟨fs.files.erase input, fs.counter⟩,
       .error (.lagunaCam (stageErrMsg "upload video"
         (uploadCommand input t) res.exitCode res.stderr))) := by
  unfold upload
  simp [hres, unlink_noFail]

theorem tempPath_succ_ne (c : Nat) (s1 s2 : String) :
    (⟨c + 1, s1⟩ : TempPath) ≠ ⟨c, s2⟩ := by
  intro hEq
  have hid := congrArg TempPath.id hEq
  simp at hid

theorem erase_after_mkTemp (c : Nat) (s1 s2 : String) (F : List TempPath) :
    ((⟨c + 1, s1⟩ : TempPath) :: ⟨c, s2⟩ :: F).erase ⟨c, s2⟩
      = ⟨c + 1, s1⟩ :: F := by
  have hne : ¬((⟨c + 1, s1⟩ : TempPath) == ⟨c, s2⟩) = true := by
    simp [beq_iff_eq]
  rw [List.erase_cons_tail hne, List.erase_cons_head]

theorem runCycle_capFail (w h d : Int) (env : CycleEnv) (fs : FS)
    (hr : ¬ env.raspivid.exitCode = 0) :
    runCycle w h d env noUnlinkFail fs =
      (⟨fs.files, fs.counter + 1⟩,
       .error (.lagunaCam (stageErrMsg "record video"
         (recordCommand w h d ⟨fs.counter, ".h264"⟩)
         env.raspivid.exitCode env.raspivid.stderr)),
       [Stage.capture]) := by
  unfold runCycle
  rw [record_err _ _ _ _ _ hr]

theorem runCycle_encFail (w h d : Int) (env : CycleEnv) (fs : FS)
    (hr : env.raspivid.exitCode = 0) (he : ¬ env.ffmpeg.exitCode = 0) :
    runCycle w h d env noUnlinkFail fs =
      (⟨fs.files, fs.counter + 2⟩,
       .error (.lagunaCam (stageErrMsg "encode video"
         (encodeCommand ⟨fs.counter, ".h264"⟩ ⟨fs.counter + 1, ".mp4"⟩)
         env.ffmpeg.exitCode env.ffmpeg.stderr)),
       [Stage.capture, Stage.transcode]) := by
  simp [runCycle, record_ok _ _ _ _ _ hr, encode_err _ _ _ he]

theorem runCycle_uplFail (w h d : Int) (env : CycleEnv) (fs : FS)
    (hr : env.raspivid.exitCode = 0) (he : env.ffmpeg.exitCode = 0)
    (hu : ¬ env.scp.exitCode = 0) :
    runCycle w h d env noUnlinkFail fs =
      (⟨fs.files, fs.counter + 2⟩,
       .error (.lagunaCam (stageErrMsg "upload video"
         (uploadCommand ⟨fs.counter + 1, ".mp4"⟩ env.time)
         env.scp.exitCode env.scp.stderr)),
       [Stage.capture, Stage.transcode, Stage.upload]) := by
  simp [runCycle, record_ok _ _ _ _ _ hr, encode_ok _ _ _ he,
    erase_after_mkTemp, upload_err _ _ _ _ hu]

theorem runCycle_allOk (w h d : Int) (env : CycleEnv) (fs : FS)
    (hr : env.raspivid.exitCode = 0) (he : env.ffmpeg.exitCode = 0)
    (hu : env.scp.exitCode = 0) :
    runCycle w h d env noUnlinkFail fs =
      (⟨fs.files, fs.counter + 2⟩, .ok (uploadFilename env.time),
       [Stage.capture, Stage.transcode, Stage.upload]) := by
  simp [runCycle, record_ok _ _ _ _ _ hr, encode_ok _ _ _ he,
    erase_after_mkTemp, upload_ok _ _ _ _ hu]

/-- C1: for every pipeline cycle, whichever stage succeeds or fails (with
temp-file deletion itself functioning, `noUnlinkFail`), the filesystem after
`create_video_task` holds exactly the files it held before the cycle: no
temporary artifact created during the cycle remains on disk. -/
theorem cycle_leaves_no_temp_files (w h d : Int) (env : CycleEnv) (fs : FS) :
    ((createVideoTask w h d env noUnlinkFail fs).1).files = fs.files := by
  unfold createVideoTask
  by_cases hr : env.raspivid.exitCode = 0
  · by_cases he : env.ffmpeg.exitCode = 0
    · by_cases hu : env.scp.exitCode = 0
      · rw [runCycle_allOk w h d env fs hr he hu]
      · rw [runCycle_uplFail w h d env fs hr he hu]
    · rw [runCycle_encFail w h d env fs hr he]
  · rw [runCycle_capFail w h d env fs hr]

/-- C2: a cycle whose capture tool fails invokes neither the transcode nor
the upload stage (its stage trace is exactly `[capture]`); a cycle whose
transcode tool fails never invokes upload (trace `[capture, transcode]`) and
has deleted the capture-provided ".h264" input artifact by the time the
failure is signalled. -/
theorem stage_failure_short_circuits (w h d : Int) (env : CycleEnv) (fs : FS)
    (hfresh : ∀ p ∈ fs.files, p.id < fs.counter) :
    (¬ env.raspivid.exitCode = 0 →
      (createVideoTask w h d env noUnlinkFail fs).2.2 = [Stage.capture])
    ∧ (env.raspivid.exitCode = 0 → ¬ env.ffmpeg.exitCode = 0 →
      (createVideoTask w h d env noUnlinkFail fs).2.2
          = [Stage.capture, Stage.transcode]
      ∧ (⟨fs.counter, ".h264"⟩ : TempPath)
          ∉ ((createVideoTask w h d env noUnlinkFail fs).1).files) := by
  constructor
  · intro hr
    unfold createVideoTask
    rw [runCycle_capFail w h d env fs hr]
  · intro hr he
    unfold createVideoTask
    rw [runCycle_encFail w h d env fs hr he]
    refine ⟨rfl, ?_⟩
    intro hmem
    have hlt := hfresh _ hmem
    simp at hlt

theorem stage_failure_short_circuits_witness :
    (createVideoTask 1920 1080 30000 envCapFail noUnlinkFail fs0).2.2
        = [Stage.capture]
    ∧ ((createVideoTask 1920 1080 30000 envEncFail noUnlinkFail fs0).2.2
          = [Stage.capture, Stage.transcode]
      ∧ (⟨0, ".h264"⟩ : TempPath)
          ∉ ((createVideoTask 1920 1080 30000 envEncFail noUnlinkFail fs0).1).files) := by
  refine ⟨(stage_failure_short_circuits 1920 1080 30000 envCapFail fs0
      (by decide)).1 (by decide), ?_⟩
  exact (stage_failure_short_circuits 1920 1080 30000 envEncFail fs0
      (by decide)).2 (by decide) (by decide)

/-- C3: the transcode stage deletes its input artifact before returning on
every outcome; on tool failure it additionally deletes the partially-written
".mp4" output artifact and raises a `LagunaCamException` whose message
carries the tool's exit code and captured stderr text. -/
theorem encode_stage_contract (res : ProcResult) (input : TempPath) (fs : FS)
    (hnd : fs.files.Nodup) (hfresh : ∀ p ∈ fs.files, p.id < fs.counter)
    (hin : input.id < fs.counter) :
    input ∉ ((encode res noUnlinkFail input fs).1).files
    ∧ (res.exitCode = 0 →
        (encode res noUnlinkFail input fs).2 = .ok ⟨fs.counter, ".mp4"⟩)
    ∧ (¬ res.exitCode = 0 →
        (⟨fs.counter, ".mp4"⟩ : TempPath)
            ∉ ((encode res noUnlinkFail input fs).1).files
        ∧ (encode res noUnlinkFail input fs).2
            = .error (.lagunaCam (stageErrMsg "encode video"
                (encodeCommand input ⟨fs.counter, ".mp4"⟩)
                res.exitCode res.stderr))
        ∧ ∃ a b, (encode res noUnlinkFail input fs).2
            = .error (.lagunaCam (a ++ toString res.exitCode ++ b ++ res.stderr))) := by
  have hne : input ≠ (⟨fs.counter, ".mp4"⟩ : TempPath) := by
    intro hEq
    rw [hEq] at hin
    simp at hin
  refine ⟨?_, ?_, ?_⟩
  · by_cases hres : res.exitCode = 0
    · rw [encode_ok _ _ _ hres]
      have hneb : ¬((⟨fs.counter, ".mp4"⟩ : TempPath) == input) = true := by
        simp [beq_iff_eq]
        intro hEq
        exact hne hEq.symm
      rw [List.erase_cons_tail hneb]
      intro hmem
      rcases List.mem_cons.mp hmem with hEq | hmem2
      · exact hne hEq
      · exact hnd.not_mem_erase hmem2
    · rw [encode_err _ _ _ hres]
      exact hnd.not_mem_erase
  · intro hres
    rw [encode_ok _ _ _ hres]
  · intro hres
    rw [encode_err _ _ _ hres]
    refine ⟨?_, rfl, ?_⟩
    · intro hmem
      have hmem2 := List.mem_of_mem_erase hmem
      have hlt := hfresh _ hmem2
      simp at hlt
    · exact ⟨stageErrMsgPre "encode video"
        (encodeCommand input ⟨fs.counter, ".mp4"⟩), stageErrMsgMid, rfl⟩

theorem encode_stage_contract_witness :
    (⟨0, ".h264"⟩ : TempPath)
        ∉ ((encode ⟨1, "codec error"⟩ noUnlinkFail ⟨0, ".h264"⟩
              ⟨[⟨0, ".h264"⟩], 1⟩).1).files
    ∧ (encode ⟨0, ""⟩ noUnlinkFail ⟨0, ".h264"⟩ ⟨[⟨0, ".h264"⟩], 1⟩).2
        = .ok ⟨1, ".mp4"⟩
    ∧ (⟨1, ".mp4"⟩ : TempPath)
        ∉ ((encode ⟨1, "codec error"⟩ noUnlinkFail ⟨0, ".h264"⟩
              ⟨[⟨0, ".h264"⟩], 1⟩).1).files := by
  refine ⟨(encode_stage_contract ⟨1, "codec error"⟩ ⟨0, ".h264"⟩
      ⟨[⟨0, ".h264"⟩], 1⟩ (by decide) (by decide) (by decide)).1,
    (encode_stage_contract ⟨0, ""⟩ ⟨0, ".h264"⟩
      ⟨[⟨0, ".h264"⟩], 1⟩ (by decide) (by decide) (by decide)).2.1 (by decide), ?_⟩
  exact ((encode_stage_contract ⟨1, "codec error"⟩ ⟨0, ".h264"⟩
      ⟨[⟨0, ".h264"⟩], 1⟩ (by decide) (by decide) (by decide)).2.2 (by decide)).1

/-- C4: the upload stage deletes its local input artifact on every outcome;
on tool failure it raises a `LagunaCamException` whose message carries the
exit code and captured stderr; on success it returns the generated remote
filename `laboratorio_laguna_cam_<YYYY-MM-DD-HH_MM_SS>.mp4`. -/
theorem upload_stage_contract (res : ProcResult) (t : DateTime)
    (input : TempPath) (fs : FS) (hnd : fs.files.Nodup) :
    input ∉ ((upload res noUnlinkFail t input fs).1).files
    ∧ (res.exitCode = 0 →
        (upload res noUnlinkFail t input fs).2
          = .ok ("laboratorio_laguna_cam_" ++ timestampOf t ++ ".mp4"))
    ∧ (¬ res.exitCode = 0 →
        ∃ a b, (upload res noUnlinkFail t input fs).2
          = .error (.lagunaCam (a ++ toString res.exitCode ++ b ++ res.stderr))) := by
  refine ⟨?_, ?_, ?_⟩
  · by_cases hres : res.exitCode = 0
    · rw [upload_ok _ _ _ _ hres]
      exact hnd.not_mem_erase
    · rw [upload_err _ _ _ _ hres]
      exact hnd.not_mem_erase
  · intro hres
    rw [upload_ok _ _ _ _ hres]
    rfl
  · intro hres
    rw [upload_err _ _ _ _ hres]
    exact ⟨stageErrMsgPre "upload video" (uploadCommand input t),
      stageErrMsgMid, rfl⟩

theorem upload_stage_contract_witness :
    (⟨1, ".mp4"⟩ : TempPath)
        ∉ ((upload ⟨0, ""⟩ noUnlinkFail sampleTime ⟨1, ".mp4"⟩
              ⟨[⟨1, ".mp4"⟩], 2⟩).1).files
    ∧ (upload ⟨0, ""⟩ noUnlinkFail sampleTime ⟨1, ".mp4"⟩
          ⟨[⟨1, ".mp4"⟩], 2⟩).2
        = .ok ("laboratorio_laguna_cam_" ++ timestampOf sampleTime ++ ".mp4")
    ∧ ∃ a b, (upload ⟨1, "connection refused"⟩ noUnlinkFail sampleTime
          ⟨1, ".mp4"⟩ ⟨[⟨1, ".mp4"⟩], 2⟩).2
        = .error (.lagunaCam (a ++ toString (1 : Int) ++ b ++ "connection refused")) := by
  refine ⟨(upload_stage_contract ⟨0, ""⟩ sampleTime ⟨1, ".mp4"⟩
      ⟨[⟨1, ".mp4"⟩], 2⟩ (by decide)).1,
    (upload_stage_contract ⟨0, ""⟩ sampleTime ⟨1, ".mp4"⟩
      ⟨[⟨1, ".mp4"⟩], 2⟩ (by decide)).2.1 (by decide), ?_⟩
  exact (upload_stage_contract ⟨1, "connection refused"⟩ sampleTime ⟨1, ".mp4"⟩
      ⟨[⟨1, ".mp4"⟩], 2⟩ (by decide)).2.2 (by decide)

/-- C5: a `LagunaCamException` raised during a cycle is caught and logged
inside `create_video_task` itself, which returns normally; consequently the
scheduler loop dispatches every due trigger — a run of `n` due triggers
performs exactly `n` job invocations whatever the per-cycle outcomes
(including all-failing cycles) are. -/
theorem scheduler_survives_cycle_failures (w h d : Int)
    (envs : Nat → CycleEnv) (oracle : TempPath → Bool) :
    (∀ k n fs, ((schedFrom w h d envs oracle k n fs).2).length = n)
    ∧ (∀ env fs fs1 m tr,
        runCycle w h d env oracle fs = (fs1, .error (.lagunaCam m), tr) →
        createVideoTask w h d env oracle fs = (fs1, .loggedError m, tr)) := by
  constructor
  · intro k n
    induction n generalizing k with
    | zero => intro fs; rfl
    | succ n ih =>
      intro fs
      have := ih (k + 1)
        ((createVideoTask w h d (envs k) oracle fs).1)
      simp [schedFrom, this]
  · intro env fs fs1 m tr hEq
    unfold createVideoTask
    rw [hEq]

theorem scheduler_survives_cycle_failures_witness :
    ((schedFrom 1920 1080 30000 (fun _ => envCapFail) noUnlinkFail 0 3 fs0).2).length = 3
    ∧ createVideoTask 1920 1080 30000 envCapFail noUnlinkFail fs0
        = (⟨[], 1⟩,
           .loggedError (stageErrMsg "record video"
             (recordCommand 1920 1080 30000 ⟨0, ".h264"⟩) 1 "device busy"),
           [Stage.capture]) := by
  exact ⟨(scheduler_survives_cycle_failures 1920 1080 30000
      (fun _ => envCapFail) noUnlinkFail).1 0 3 fs0,
    (scheduler_survives_cycle_failures 1920 1080 30000
      (fun _ => envCapFail) noUnlinkFail).2 envCapFail fs0 _ _ _ rfl⟩

/-- C10: the per-cycle failure isolation of `create_video_task` applies only
to the program's own `LagunaCamException`: a cycle ending in the domain
error is logged and the job returns normally, while any other exception —
such as an `OSError` raised while deleting a temporary file — is not caught
by the job function and escapes to the scheduler framework. -/
theorem only_domain_errors_caught (w h d : Int) (env : CycleEnv)
    (oracle : TempPath → Bool) (fs : FS) :
    (∀ fs1 m tr,
        runCycle w h d env oracle fs = (fs1, .error (.lagunaCam m), tr) →
        createVideoTask w h d env oracle fs = (fs1, .loggedError m, tr))
    ∧ (∀ fs1 p tr,
        runCycle w h d env oracle fs = (fs1, .error (.osUnlinkError p), tr) →
        createVideoTask w h d env oracle fs
          = (fs1, .escaped (.osUnlinkError p), tr)) := by
  constructor
  · intro fs1 m tr hEq
    unfold createVideoTask
    rw [hEq]
  · intro fs1 p tr hEq
    unfold createVideoTask
    rw [hEq]

theorem only_domain_errors_caught_witness :
    createVideoTask 1920 1080 30000 envEncFail failUnlink0 fs0
      = (⟨[⟨0, ".h264"⟩], 2⟩, .escaped (.osUnlinkError ⟨0, ".h264"⟩),
         [Stage.capture, Stage.transcode])
    ∧ createVideoTask 1920 1080 30000 envCapFail noUnlinkFail fs0
      = (⟨[], 1⟩,
         .loggedError (stageErrMsg "record video"
           (recordCommand 1920 1080 30000 ⟨0, ".h264"⟩) 1 "device busy"),
         [Stage.capture]) := by
  exact ⟨(only_domain_errors_caught 1920 1080 30000 envEncFail failUnlink0
      fs0).2 _ _ _ rfl,
    (only_domain_errors_caught 1920 1080 30000 envCapFail noUnlinkFail
      fs0).1 _ _ _ rfl⟩

/-- C8 counterexample: when the transcoder fails (exit 1) and the OS then
fails to delete the ".h264" input during the cleanup in `finally`
(`failUnlink0`), the resulting `OSError` is neither tolerated nor logged —
it propagates out of `encode`, replacing the original transcode
`LagunaCamException` that was in flight. -/
theorem unlink_failure_replaces_stage_error :
    (encode ⟨1, "codec error"⟩ failUnlink0 ⟨0, ".h264"⟩
        ⟨[⟨0, ".h264"⟩], 1⟩).2
      = .error (.osUnlinkError ⟨0, ".h264"⟩)
    ∧ (encode ⟨1, "codec error"⟩ failUnlink0 ⟨0, ".h264"⟩
        ⟨[⟨0, ".h264"⟩], 1⟩).2
      ≠ .error (.lagunaCam (stageErrMsg "encode video"
          (encodeCommand ⟨0, ".h264"⟩ ⟨1, ".mp4"⟩) 1 "codec error")) := by
  have h0 : (encode ⟨1, "codec error"⟩ failUnlink0 ⟨0, ".h264"⟩
      ⟨[⟨0, ".h264"⟩], 1⟩).2
      = .error (.osUnlinkError ⟨0, ".h264"⟩) := rfl
  refine ⟨h0, ?_⟩
  rw [h0]
  simp

/-- C8 amended: cleanup is best-effort only for a file that is already
absent — `missing_ok=True` silently swallows that case, with no logging and
without disturbing the stage error in flight; any other deletion failure
raises an `OSError` that is not caught and, when it occurs in the `finally`
cleanup of a failing transcode or a failing upload, replaces the original
stage error being propagated (for a failing transcode this holds whether or
not the output-artifact unlink before it succeeded: the input unlink in
`finally` fails last and its `OSError` is what propagates). -/
theorem unlink_tolerance_amended (oracle : TempPath → Bool) (p : TempPath)
    (fs : FS) (res : ProcResult) (input : TempPath) (t : DateTime)
    (hmiss : p ∉ fs.files) :
    unlinkMissingOk oracle p fs = (fs, none)
    ∧ (¬ res.exitCode = 0 → oracle input = true → input ∈ fs.files →
        (encode res oracle input fs).2 = .error (.osUnlinkError input))
    ∧ (¬ res.exitCode = 0 → oracle input = true → input ∈ fs.files →
        (upload res oracle t input fs).2 = .error (.osUnlinkError input)) := by
  refine ⟨?_, ?_, ?_⟩
  · unfold unlinkMissingOk
    simp [hmiss]
  · intro hres horin hmem
    cases horout : oracle ⟨fs.counter, ".mp4"⟩ with
    | false =>
      have h1 : unlinkMissingOk oracle ⟨fs.counter, ".mp4"⟩
          ⟨⟨fs.counter, ".mp4"⟩ :: fs.files, fs.counter + 1⟩
          = (⟨fs.files, fs.counter + 1⟩, none) := by
        unfold unlinkMissingOk
        simp [horout]
      have h2 : unlinkMissingOk oracle input ⟨fs.files, fs.counter + 1⟩
          = (⟨fs.files, fs.counter + 1⟩, some (.osUnlinkError input)) := by
        unfold unlinkMissingOk
        simp [hmem, horin]
      unfold encode FS.mkTemp
      simp [hres, h1, h2]
    | true =>
      have hmem2 : input ∈ (⟨fs.counter, ".mp4"⟩ : TempPath) :: fs.files :=
        List.mem_cons_of_mem _ hmem
      have h1 : unlinkMissingOk oracle ⟨fs.counter, ".mp4"⟩
          ⟨⟨fs.counter, ".mp4"⟩ :: fs.files, fs.counter + 1⟩
          = (⟨⟨fs.counter, ".mp4"⟩ :: fs.files, fs.counter + 1⟩,
             some (.osUnlinkError ⟨fs.counter, ".mp4"⟩)) := by
        unfold unlinkMissingOk
        simp [horout]
      have h2 : unlinkMissingOk oracle input
          ⟨⟨fs.counter, ".mp4"⟩ :: fs.files, fs.counter + 1⟩
          = (⟨⟨fs.counter, ".mp4"⟩ :: fs.files, fs.counter + 1⟩,
             some (.osUnlinkError input)) := by
        unfold unlinkMissingOk
        simp [hmem2, horin]
      unfold encode FS.mkTemp
      simp [hres, h1, h2]
  · intro hres horin hmem
    have h2 : unlinkMissingOk oracle input fs
        = (fs, some (.osUnlinkError input)) := by
      unfold unlinkMissingOk
      simp [hmem, horin]
    unfold upload
    simp [hres, h2]

theorem unlink_tolerance_amended_witness :
    unlinkMissingOk failUnlink0 ⟨5, ".mp4"⟩ ⟨[⟨0, ".h264"⟩], 1⟩
      = (⟨[⟨0, ".h264"⟩], 1⟩, none)
    ∧ (encode ⟨1, "codec error"⟩ failUnlink0 ⟨0, ".h264"⟩
        ⟨[⟨0, ".h264"⟩], 1⟩).2
      = .error (.osUnlinkError ⟨0, ".h264"⟩)
    ∧ (upload ⟨1, "connection refused"⟩ failUnlink0 sampleTime ⟨0, ".mp4"⟩
        ⟨[⟨0, ".mp4"⟩], 1⟩).2
      = .error (.osUnlinkError ⟨0, ".mp4"⟩) := by
  refine ⟨(unlink_tolerance_amended failUnlink0 ⟨5, ".mp4"⟩
      ⟨[⟨0, ".h264"⟩], 1⟩ ⟨1, "codec error"⟩ ⟨0, ".h264"⟩ sampleTime
      (by decide)).1, ?_, ?_⟩
  · exact (unlink_tolerance_amended failUnlink0 ⟨5, ".mp4"⟩
      ⟨[⟨0, ".h264"⟩], 1⟩ ⟨1, "codec error"⟩ ⟨0, ".h264"⟩ sampleTime
      (by decide)).2.1 (by decide) (by decide) (by decide)
  · exact (unlink_tolerance_amended failUnlink0 ⟨5, ".mp4"⟩
      ⟨[⟨0, ".mp4"⟩], 1⟩ ⟨1, "connection refused"⟩ ⟨0, ".mp4"⟩ sampleTime
      (by decide)).2.2 (by decide) (by decide) (by decide)

/-- C7: under a valid log-level flag, the one-shot setup job runs exactly
once and before the scheduler starts; its capture command carries duration
`setup_time * 1000` ms after `-t` and has no `-o` output-file argument; a
tool failure during setup leaves the `LagunaCamException` uncaught, so the
process aborts and the scheduler never starts, while on success the
scheduler starts right after the single setup run. -/
theorem startup_oneshot_contract (logArg : String) (lvl : Nat)
    (res : ProcResult) (w h st : Int)
    (hlog : checkLogLevel logArg = some lvl) :
    (startupCommand w h st).get? 2 = some (CArg.num (st * 1000))
    ∧ CArg.flag "-o" ∉ startupCommand w h st
    ∧ (res.exitCode = 0 →
        mainProgram logArg res w h st
          = ([.setupRun (startupCommand w h st), .schedulerStarted],
             .schedulerRunning))
    ∧ (¬ res.exitCode = 0 →
        mainProgram logArg res w h st
          = ([.setupRun (startupCommand w h st)],
             .uncaught (.lagunaCam (stageErrMsg "complete setup phase"
               (startupCommand w h st) res.exitCode res.stderr)))) := by
  refine ⟨rfl, ?_, ?_, ?_⟩
  · intro hmem
    simp [startupCommand] at hmem
  · intro hres
    unfold mainProgram
    rw [hlog]
    unfold startup
    simp [hres]
  · intro hres
    unfold mainProgram
    rw [hlog]
    unfold startup
    simp [hres]

theorem startup_oneshot_contract_witness :
    ((startupCommand 1920 1080 120).get? 2 = some (CArg.num (120 * 1000))
      ∧ CArg.flag "-o" ∉ startupCommand 1920 1080 120
      ∧ mainProgram "info" ⟨0, ""⟩ 1920 1080 120
          = ([.setupRun (startupCommand 1920 1080 120), .schedulerStarted],
             .schedulerRunning))
    ∧ mainProgram "info" ⟨70, "no camera"⟩ 1920 1080 120
        = ([.setupRun (startupCommand 1920 1080 120)],
           .uncaught (.lagunaCam (stageErrMsg "complete setup phase"
             (startupCommand 1920 1080 120) 70 "no camera"))) := by
  have hok := startup_oneshot_contract "info" 20 ⟨0, ""⟩ 1920 1080 120 rfl
  have hbad := startup_oneshot_contract "info" 20 ⟨70, "no camera"⟩
    1920 1080 120 rfl
  exact ⟨⟨hok.1, hok.2.1, hok.2.2.1 rfl⟩, hbad.2.2.2 (by decide)⟩

/-- C9: for every log-level flag whose lowercasing is outside
critical/error/warning/info/debug, startup is fatal: the process terminates
with a non-zero exit status before the setup job or any scheduling — no
startup event occurs at all. (In the source the rejection line reads
`sys.exit(...)` but `sys` is never imported, so the line actually raises an
uncaught `NameError`; either way the process exits non-zero at this point.) -/
theorem invalid_log_level_fatal (logArg : String) (res : ProcResult)
    (w h st : Int)
    (hbad : pyLower logArg ∉ ["critical", "error", "warning", "info", "debug"]) :
    mainProgram logArg res w h st = ([], .fatalExit) := by
  simp [List.mem_cons] at hbad
  obtain ⟨h1, h2, h3, h4, h5⟩ := hbad
  have hnone : checkLogLevel logArg = none := by
    unfold checkLogLevel logLevels
    simp [List.lookup, beq_eq_false_iff_ne.mpr h1, beq_eq_false_iff_ne.mpr h2,
      beq_eq_false_iff_ne.mpr h3, beq_eq_false_iff_ne.mpr h4,
      beq_eq_false_iff_ne.mpr h5]
  unfold mainProgram
  rw [hnone]

theorem invalid_log_level_fatal_witness :
    mainProgram "Verbose" ⟨0, ""⟩ 1920 1080 120 = ([], .fatalExit) :=
  invalid_log_level_fatal "Verbose" ⟨0, ""⟩ 1920 1080 120 (by decide)

theorem splitOnComma_cons (c : Char) (l : List Char) :
    splitOnComma (c :: l) =
      match splitOnComma l with
      | [] => [[]]
      | part :: parts =>
          if c = ',' then [] :: part :: parts else (c :: part) :: parts := rfl

theorem splitOnComma_ne_nil (l : List Char) : splitOnComma l ≠ [] := by
  induction l with
  | nil => simp [splitOnComma]
  | cons c l ih =>
    rw [splitOnComma_cons]
    rcases hl : splitOnComma l with _ | ⟨part, parts⟩
    · exact absurd hl ih
    · by_cases hc : c = ','
      · simp [hc]
      · simp [hc]

theorem splitOnComma_no_comma (l : List Char) (h : ',' ∉ l) :
    splitOnComma l = [l] := by
  induction l with
  | nil => rfl
  | cons c l ih =>
    have hc : ¬ c = ',' := by
      intro hEq
      apply h
      rw [← hEq]
      exact List.mem_cons_self c l
    rw [splitOnComma_cons,
      ih (fun hm => h (List.mem_cons_of_mem _ hm))]
    simp [hc]

theorem splitOnComma_append (l1 l2 : List Char) (h : ',' ∉ l1) :
    splitOnComma (l1 ++ ',' :: l2) = l1 :: splitOnComma l2 := by
  induction l1 with
  | nil =>
    rcases hl : splitOnComma l2 with _ | ⟨part, parts⟩
    · exact absurd hl (splitOnComma_ne_nil l2)
    · rw [List.nil_append, splitOnComma_cons, hl]
      simp
  | cons c l1 ih =>
    have hc : ¬ c = ',' := by
      intro hEq
      apply h
      rw [← hEq]
      exact List.mem_cons_self c l1
    rw [List.cons_append, splitOnComma_cons,
      ih (fun hm => h (List.mem_cons_of_mem _ hm))]
    simp [hc]

/-- C6 counterexample: the input "3,-4" contains a negative number, yet the
size converter does not fail validation — it returns `(3, -4)`, because
Python `int()` accepts signed literals. -/
theorem size_negative_accepted :
    sizeArg ("3,-4".toList) = .ok (3, -4) := by rfl

/-- C6 amended: for every input `"A,B"` whose two comma-free parts are
Python integer literals (signs allowed, so zero and negative components are
accepted rather than rejected), the size converter returns the pair `(A, B)`;
an input that does not split into exactly two comma-separated parts, or one
of whose parts is not an integer literal, fails validation with the
argument-type error "Size must be w,h". -/
theorem size_parse_amended :
    (∀ l1 l2 w h, ',' ∉ l1 → ',' ∉ l2 → pyInt l1 = some w → pyInt l2 = some h →
        sizeArg (l1 ++ ',' :: l2) = .ok (w, h))
    ∧ (∀ l, (splitOnComma l).length ≠ 2 →
        sizeArg l = .error "Size must be w,h")
    ∧ (∀ l p1 p2, splitOnComma l = [p1, p2] →
        (pyInt p1 = none ∨ pyInt p2 = none) →
        sizeArg l = .error "Size must be w,h") := by
  refine ⟨?_, ?_, ?_⟩
  · intro l1 l2 w h h1 h2 hw hh
    unfold sizeArg
    rw [splitOnComma_append l1 l2 h1, splitOnComma_no_comma l2 h2]
    simp [hw, hh]
  · intro l hlen
    unfold sizeArg
    rcases hl : splitOnComma l with _ | ⟨p1, _ | ⟨p2, _ | ⟨p3, rest⟩⟩⟩
    · rfl
    · rfl
    · rw [hl] at hlen
      simp at hlen
    · rfl
  · intro l p1 p2 hl hnone
    unfold sizeArg
    rw [hl]
    rcases hnone with hn | hn
    · rcases hp : pyInt p2 with _ | v
      · simp [hn, hp]
      · simp [hn, hp]
    · rcases hp : pyInt p1 with _ | v
      · simp [hn, hp]
      · simp [hn, hp]

theorem size_parse_amended_witness :
    sizeArg (['1', '2'] ++ ',' :: ['-', '4']) = .ok (12, -4)
    ∧ sizeArg ("1920".toList) = .error "Size must be w,h"
    ∧ sizeArg ("a,7".toList) = .error "Size must be w,h" := by
  refine ⟨size_parse_amended.1 ['1', '2'] ['-', '4'] 12 (-4)
      (by decide) (by decide) (by decide) (by decide),
    size_parse_amended.2.1 ("1920".toList) (by decide), ?_⟩
  exact size_parse_amended.2.2 ("a,7".toList) ['a'] ['7'] (by decide)
    (Or.inl (by decide))

end LagunaCam
